import Mathlib

/-!
Shallow embedding of the Site Analysis & Scoring Engine of the
project-growth-tracker application (src/app.py): URL normalisation
(`ProjectAnalyzer.clean_url`), the fetch fallback policy of
`ProjectAnalyzer.analyze_url`, the feature extractors, the scorer
(`ProjectAnalyzer._calculate_scores`), the complexity estimate
(`GrowthAnalyzer._calculate_complexity`) and the dashboard trend metrics
of `GrowthDashboard._show_growth_insights`.

Python strings are modelled as `List Char`; the Python string operations
the code uses (`replace`, `rstrip`, `split`, `startswith`, `in`, `lower`,
`split()` word counting) are modelled by executable functions below.
Fallible Python operations (`AttributeError` on `None`,
`ZeroDivisionError`) are modelled with `Except`.
-/

namespace Tracker

/-- Characters of a string literal. -/
def chars (s : String) : List Char := s.data

/-- Python `s.startswith(pat)` on character lists; the first argument is
the pattern. -/
def startsWith : List Char → List Char → Bool
  | [], _ => true
  | _ :: _, [] => false
  | p :: ps, c :: cs => p == c && startsWith ps cs

/-- Python `pat in s` substring test. -/
def containsSub (pat : List Char) : List Char → Bool
  | [] => pat.isEmpty
  | c :: cs => startsWith pat (c :: cs) || containsSub pat cs

/-- Fuel-indexed worker for `replaceAll`.  With fuel at least `s.length`
it removes every non-overlapping occurrence of `pat` in `s`, scanning
left to right, exactly like Python `s.replace(pat, '')`. -/
def replaceAllFuel (pat : List Char) : Nat → List Char → List Char
  | _, [] => []
  | 0, s => s
  | n + 1, c :: rest =>
    if !pat.isEmpty && startsWith pat (c :: rest) then
      replaceAllFuel pat n (rest.drop (pat.length - 1))
    else
      c :: replaceAllFuel pat n rest

/-- Python `s.replace(pat, '')`. -/
def replaceAll (pat s : List Char) : List Char := replaceAllFuel pat s.length s

/-- Python `s.rstrip('/')`. -/
def rstripSlash (s : List Char) : List Char :=
  (s.reverse.dropWhile (fun c => c == '/')).reverse

/-- Python `s.lower()` (ASCII suffices for the matched markup). -/
def lowerStr (s : List Char) : List Char := s.map Char.toLower

def httpsPre : List Char := chars "https://"
def httpPre : List Char := chars "http://"
def vercelCom : List Char := chars "vercel.com"
def vercelApp : List Char := chars ".vercel.app"

/-- The scan over `url.split('/')` in `ProjectAnalyzer.clean_url`: the
first part that equals `projects` or contains `vercel.com` and has a
successor part yields that successor. -/
def vercelScan : List (List Char) → Option (List Char)
  | p :: q :: rest =>
    if p == chars "projects" || containsSub vercelCom p then some q
    else vercelScan (q :: rest)
  | _ => none

/-- The scheme stripping `url.replace('https://', '').replace('http://', '')`
used both by `clean_url` and by the fallback list of `analyze_url`. -/
def strip_schemes (url : List Char) : List Char :=
  replaceAll httpPre (replaceAll httpsPre url)

/-- The generic branch of `ProjectAnalyzer.clean_url`: strip the scheme
occurrences, strip trailing slashes, prepend `https://`. -/
def generic_clean (url : List Char) : List Char :=
  httpsPre ++ rstripSlash (strip_schemes url)

/-- `ProjectAnalyzer.clean_url`. -/
def clean_url (url : List Char) : List Char :=
  if containsSub vercelCom url then
    match vercelScan (url.splitOn '/') with
    | some q => httpsPre ++ q ++ vercelApp
    | none => generic_clean url
  else generic_clean url

/-- The ordered fallback candidate list built in
`ProjectAnalyzer.analyze_url` after the primary request fails. -/
def alternative_urls (url : List Char) : List (List Char) :=
  [ httpsPre ++ strip_schemes url
  , httpPre ++ strip_schemes url
  , if startsWith httpPre url || startsWith httpsPre url then url
    else httpsPre ++ url ]

/-- The fetch phase of `ProjectAnalyzer.analyze_url`, abstracted over
which URLs the transport layer can reach (`ok`): request the cleaned URL
first, then each alternative in order, stopping at the first success;
when everything fails the raised error carries the original input and
the attempted URLs in the order they were attempted. -/
def fetch_result (ok : List Char → Bool) (url : List Char) :
    Except (List Char × List (List Char)) (List Char) :=
  if ok (clean_url url) then .ok (clean_url url)
  else
    match (alternative_urls url).find? ok with
    | some alt => .ok alt
    | none => .error (url, clean_url url :: alternative_urls url)

/-! ## Parsed-document model

`BeautifulSoup(response.text, 'html.parser')` output is abstracted as the
flat list of all tags of the tree (which is what every `find`/`find_all`
call in the code traverses), the `<title>` string, the serialized markup
lowered (`str(soup).lower()`, used for the substring heuristics) and the
text content (`soup.get_text()`).  `html.parser` accepts any input and
does not synthesise a missing `<html>` element. -/

structure Element where
  name : List Char
  attrs : List (List Char × List Char)
deriving DecidableEq

structure Doc where
  elements : List Element
  titleTag : Option (List Char)
  serializedLower : List Char
  innerText : List Char
deriving DecidableEq

/-- Python `tag.get(k)`: the value of attribute `k`, if present. -/
def attrGet (k : List Char) (e : Element) : Option (List Char) :=
  (e.attrs.find? (fun p => p.1 == k)).map (fun p => p.2)

/-- Python truthiness of an optional string: `None` and `''` are falsy. -/
def optTruthy : Option (List Char) → Bool
  | none => false
  | some s => !s.isEmpty

/-- `soup.find(name)`: first tag with the given name. -/
def findTag (nm : List Char) (d : Doc) : Option Element :=
  d.elements.find? (fun e => e.name == nm)

/-- `soup.find_all(name)`. -/
def findAllTag (nm : List Char) (d : Doc) : List Element :=
  d.elements.filter (fun e => e.name == nm)

/-- `soup.find_all([n1, n2, ...])`, as used by `_calculate_complexity`. -/
def countNames (nms : List (List Char)) (d : Doc) : Nat :=
  (d.elements.filter (fun e => nms.contains e.name)).length

/-- `soup.find('meta', {'name': v})`. -/
def findMetaNamed (v : List Char) (d : Doc) : Option Element :=
  d.elements.find? (fun e => e.name == chars "meta" && attrGet (chars "name") e == some v)

/-- Images carrying a truthy `alt` attribute, as counted twice in the code
(`_analyze_seo` and `_analyze_accessibility`). -/
def imgAltCount (d : Doc) : Nat :=
  ((findAllTag (chars "img") d).filter (fun e => optTruthy (attrGet (chars "alt") e))).length

/-! ## Feature extraction (`ProjectAnalyzer`) -/

structure SeoSignals where
  metaDescription : Option (List Char)
  metaKeywords : Option (List Char)
  h1Count : Nat
  hasRobotsTxt : Bool
  hasSitemap : Bool
  imageAltTexts : Nat
deriving DecidableEq

/-- `ProjectAnalyzer._analyze_seo`. -/
def analyze_seo (d : Doc) : SeoSignals :=
  { metaDescription := (findMetaNamed (chars "description") d).bind (attrGet (chars "content"))
  , metaKeywords := (findMetaNamed (chars "keywords") d).bind (attrGet (chars "content"))
  , h1Count := (findAllTag (chars "h1") d).length
  , hasRobotsTxt := containsSub (chars "robots") d.serializedLower
  , hasSitemap := containsSub (chars "sitemap") d.serializedLower
  , imageAltTexts := imgAltCount d }

structure TechSignals where
  frontend : List (List Char)
  frameworks : List (List Char)
  libraries : List (List Char)
  analytics : List (List Char)
deriving DecidableEq

/-- `ProjectAnalyzer._detect_technologies`. -/
def detect_technologies (d : Doc) : TechSignals :=
  let pt := d.serializedLower
  { frontend :=
      (if containsSub (chars "react") pt || containsSub (chars "jsx") pt then [chars "React"] else [])
      ++ (if containsSub (chars "vue") pt then [chars "Vue.js"] else [])
      ++ (if containsSub (chars "angular") pt then [chars "Angular"] else [])
  , frameworks :=
      (if containsSub (chars "next") pt then [chars "Next.js"] else [])
      ++ (if containsSub (chars "nuxt") pt then [chars "Nuxt.js"] else [])
      ++ (if containsSub (chars "gatsby") pt then [chars "Gatsby"] else [])
  , libraries :=
      (if containsSub (chars "tailwind") pt then [chars "Tailwind CSS"] else [])
      ++ (if containsSub (chars "bootstrap") pt then [chars "Bootstrap"] else [])
      ++ (if containsSub (chars "jquery") pt then [chars "jQuery"] else [])
  , analytics :=
      if containsSub (chars "ga.js") pt || containsSub (chars "analytics") pt
      then [chars "Google Analytics"] else [] }

/-- The response data `analyze_url` consumes: body length, elapsed time,
headers (requests uses a case-insensitive mapping), final URL, status. -/
structure Resp where
  contentLen : Nat
  elapsedSecs : ℚ
  headers : List (List Char × List Char)
  urlR : List Char
  statusCode : Nat
deriving DecidableEq

/-- `response.headers.get(k)` with `k` lowercase (requests headers are
case-insensitive). -/
def hdrGet (k : List Char) (r : Resp) : Option (List Char) :=
  (r.headers.find? (fun p => lowerStr p.1 == k)).map (fun p => p.2)

/-- `k in response.headers`. -/
def hdrHas (k : List Char) (r : Resp) : Bool :=
  (hdrGet k r).isSome

structure PerfSignals where
  pageSize : ℚ
  loadTime : ℚ
  contentType : Option (List Char)
  compression : Bool
  cacheControl : List Char
deriving DecidableEq

/-- `ProjectAnalyzer._analyze_performance`. -/
def analyze_performance (r : Resp) : PerfSignals :=
  { pageSize := (r.contentLen : ℚ) / 1024
  , loadTime := r.elapsedSecs
  , contentType := hdrGet (chars "content-type") r
  , compression := containsSub (chars "gzip") (lowerStr ((hdrGet (chars "content-encoding") r).getD []))
  , cacheControl := (hdrGet (chars "cache-control") r).getD (chars "None") }

structure SecSignals where
  hasHttps : Bool
  hasHsts : Bool
  hasXssProtection : Bool
  hasContentSecurity : Bool
  hasXFrameOptions : Bool
deriving DecidableEq

/-- `ProjectAnalyzer._analyze_security`. -/
def analyze_security (r : Resp) : SecSignals :=
  { hasHttps := startsWith (chars "https") r.urlR
  , hasHsts := hdrHas (chars "strict-transport-security") r
  , hasXssProtection := hdrHas (chars "x-xss-protection") r
  , hasContentSecurity := hdrHas (chars "content-security-policy") r
  , hasXFrameOptions := hdrHas (chars "x-frame-options") r }

structure AccSignals where
  hasLang : Bool
  hasAriaLabels : Nat
  hasSkipLinks : Bool
  formLabels : Nat
  imageAlts : Nat
deriving DecidableEq

/-- Python runtime errors the analysed code can raise. -/
inductive PyError
  | attributeError
  | zeroDivisionError
deriving DecidableEq

/-- `ProjectAnalyzer._analyze_accessibility`.  The code evaluates
`soup.find('html').get('lang')`; when the document has no `<html>` tag,
`find` returns `None` and the `.get` call raises `AttributeError`. -/
def analyze_accessibility (d : Doc) : Except PyError AccSignals :=
  match findTag (chars "html") d with
  | none => .error .attributeError
  | some htmlTag => .ok
    { hasLang := optTruthy (attrGet (chars "lang") htmlTag)
    , hasAriaLabels :=
        (d.elements.filter (fun e => e.attrs.any (fun p => containsSub (chars "aria-") p.1))).length
    , hasSkipLinks := containsSub (chars "skip") d.serializedLower
    , formLabels := (findAllTag (chars "label") d).length
    , imageAlts := imgAltCount d }

/-- Python whitespace for `str.split()`. -/
def pyIsSpace (c : Char) : Bool :=
  c == ' ' || c == '\t' || c == '\n' || c == '\r' || c == '\x0b' || c == '\x0c'

/-- `len(s.split())`: number of maximal non-whitespace runs. -/
def countWordsAux : Bool → List Char → Nat
  | _, [] => 0
  | inWord, c :: cs =>
    if pyIsSpace c then countWordsAux false cs
    else (if inWord then 0 else 1) + countWordsAux true cs

def countWords (s : List Char) : Nat := countWordsAux false s

structure ContentSignals where
  wordCount : Nat
  h1 : Nat
  h2 : Nat
  h3 : Nat
  links : Nat
  images : Nat
  paragraphs : Nat
deriving DecidableEq

/-- `ProjectAnalyzer._analyze_content`. -/
def analyze_content (d : Doc) : ContentSignals :=
  { wordCount := countWords d.innerText
  , h1 := (findAllTag (chars "h1") d).length
  , h2 := (findAllTag (chars "h2") d).length
  , h3 := (findAllTag (chars "h3") d).length
  , links := (findAllTag (chars "a") d).length
  , images := (findAllTag (chars "img") d).length
  , paragraphs := (findAllTag (chars "p") d).length }

/-! ## Scorer (`ProjectAnalyzer._calculate_scores`) -/

/-- Python `int(x)` on a number: truncation toward zero. -/
def pyTrunc (q : ℚ) : Int := if 0 ≤ q then ⌊q⌋ else ⌈q⌉

/-- The SEO part of `_calculate_scores`: the incremental `seo_score += w`
updates, written as a sum of guarded weights. -/
def seo_score (s : SeoSignals) : Int :=
  (if optTruthy s.metaDescription then 20 else 0)
  + (if optTruthy s.metaKeywords then 15 else 0)
  + (if s.h1Count = 1 then 15 else 0)
  + (if s.hasRobotsTxt then 15 else 0)
  + (if s.hasSitemap then 15 else 0)
  + (if s.imageAltTexts > 0 then 20 else 0)

/-- The performance part of `_calculate_scores`. -/
def performance_score (p : PerfSignals) : Int :=
  max 0 (100 - (if p.loadTime > 2 then 30 else 0)
             - (if p.pageSize > 5000 then 30 else 0)
             - (if !p.compression then 20 else 0))

/-- The security part of `_calculate_scores`. -/
def security_score (s : SecSignals) : Int :=
  (if s.hasHttps then 30 else 0)
  + (if s.hasHsts then 20 else 0)
  + (if s.hasXssProtection then 20 else 0)
  + (if s.hasContentSecurity then 15 else 0)
  + (if s.hasXFrameOptions then 15 else 0)

structure Scores where
  seo : Int
  performance : Int
  security : Int
  overall : Int
deriving DecidableEq

/-- `ProjectAnalyzer._calculate_scores`: the three category scores plus
`overall = int((seo + performance + security) / 3)`. -/
def calculate_scores (a : SeoSignals) (p : PerfSignals) (s : SecSignals) : Scores :=
  { seo := seo_score a
  , performance := performance_score p
  , security := security_score s
  , overall := pyTrunc (((seo_score a + performance_score p + security_score s : Int) : ℚ) / 3) }

/-! ## The analysis result built by `ProjectAnalyzer.analyze_url` after a
successful fetch.  Every field of the Python dict literal is a total
computation except `accessibility`; an exception there aborts the dict
construction and the surrounding `try` returns the error variant. -/

structure BasicInfo where
  urlB : List Char
  statusB : Nat
  responseTime : ℚ
  titleB : List Char
deriving DecidableEq

structure Analysis where
  basicInfo : BasicInfo
  seoA : SeoSignals
  technologies : TechSignals
  performanceA : PerfSignals
  securityA : SecSignals
  accessibility : AccSignals
  contentA : ContentSignals
  scores : Scores
deriving DecidableEq

/-- The post-parse part of `ProjectAnalyzer.analyze_url`: builds the
analysis dict for the parsed document `d` of response `r` fetched from
`cleanedUrl`; returns the error variant when a field raises. -/
def analyze_document (d : Doc) (r : Resp) (cleanedUrl : List Char) :
    Except PyError Analysis :=
  match analyze_accessibility d with
  | .error e => .error e
  | .ok acc => .ok
    { basicInfo :=
        { urlB := cleanedUrl
        , statusB := r.statusCode
        , responseTime := r.elapsedSecs
        , titleB := d.titleTag.getD (chars "No title found") }
    , seoA := analyze_seo d
    , technologies := detect_technologies d
    , performanceA := analyze_performance r
    , securityA := analyze_security r
    , accessibility := acc
    , contentA := analyze_content d
    , scores := calculate_scores (analyze_seo d) (analyze_performance r) (analyze_security r) }

/-- Whether an analysis ended in the success variant. -/
def analysisOk : Except PyError Analysis → Bool
  | .ok _ => true
  | .error _ => false

/-! ## Growth analyzer (`GrowthAnalyzer` / `GrowthDashboard`) -/

/-- `GrowthAnalyzer._calculate_complexity`: a weighted sum over structural
counts, clamped by `min(·, 100)`. -/
def calculate_complexity (d : Doc) : ℚ :=
  min ((countNames [chars "div", chars "section", chars "article"] d : ℚ) * (1 / 10)
      + (countNames [chars "script"] d : ℚ) * (3 / 10)
      + (countNames [chars "style"] d : ℚ) * (2 / 10)
      + (countNames [chars "form"] d : ℚ) * (5 / 10)
      + (countNames [chars "button", chars "input", chars "select"] d : ℚ) * (3 / 10)
      + (countNames [chars "img"] d : ℚ) * (1 / 10)
      + (countNames [chars "a"] d : ℚ) * (1 / 10)) 100

/-- Python `a / b` on numbers: raises `ZeroDivisionError` on a zero
divisor. -/
def pyDivQ (a b : ℚ) : Except PyError ℚ :=
  if b = 0 then .error .zeroDivisionError else .ok (a / b)

/-- The growth-rate computation of `GrowthDashboard._show_growth_insights`
over the snapshot complexities in display order:
`((last - first) / first) * 100`, only computed for more than one
snapshot (`none` otherwise). -/
def growth_rate (cs : List ℚ) : Option (Except PyError ℚ) :=
  if cs.length > 1 then
    some ((pyDivQ (cs.getLastD 0 - cs.headD 0) (cs.headD 0)).map (fun q => q * 100))
  else none

def listMaxI : List Int → Int
  | [] => 0
  | x :: xs => xs.foldl max x

def listMinI : List Int → Int
  | [] => 0
  | x :: xs => xs.foldl min x

/-- `avg_days = (max(dates) - min(dates)).days / (len(dates) - 1)`; dates
are whole days (parsed from `%Y-%m-%d`), modelled as day numbers. -/
def meanGapDays (dates : List Int) : ℚ :=
  ((listMaxI dates - listMinI dates : Int) : ℚ) / (((dates.length : Int) - 1 : Int) : ℚ)

/-- The consistency computation of `GrowthDashboard._show_growth_insights`:
`max(0, 100 - (avg_days - 7) * 5)`, only computed for more than one
snapshot. -/
def consistency_score (dates : List Int) : Option ℚ :=
  if dates.length > 1 then some (max 0 (100 - (meanGapDays dates - 7) * 5))
  else none

/-! ## Concrete fixtures used by the claim checks -/

/-- A body `html.parser` accepts that has no `<html>` element, e.g.
`<p>hi</p>`. -/
def noHtmlDoc : Doc :=
  { elements := [{ name := chars "p", attrs := [] }]
  , titleTag := none
  , serializedLower := chars "<p>hi</p>"
  , innerText := chars "hi" }

/-- The same fragment wrapped in an `<html lang="en">` element. -/
def withHtmlDoc : Doc :=
  { elements := [{ name := chars "html", attrs := [(chars "lang", chars "en")] }
                , { name := chars "p", attrs := [] }]
  , titleTag := none
  , serializedLower := chars "<html lang=\x22en\x22><p>hi</p></html>"
  , innerText := chars "hi" }

/-- A plain response for the fixtures above. -/
def respEx : Resp :=
  { contentLen := 9
  , elapsedSecs := 1
  , headers := []
  , urlR := chars "https://x.example.com"
  , statusCode := 200 }

/-- An SEO signal group with all six score contributors present. -/
def seoFull : SeoSignals :=
  { metaDescription := some (chars "d")
  , metaKeywords := some (chars "k")
  , h1Count := 1
  , hasRobotsTxt := true
  , hasSitemap := true
  , imageAltTexts := 1 }

/-! ## Helper lemmas -/

theorem startsWith_append_self (p t : List Char) : startsWith p (p ++ t) = true := by
  induction p with
  | nil => rfl
  | cons c cs ih => simp [startsWith, ih]

theorem startsWith_eq_append (p : List Char) :
    ∀ s : List Char, startsWith p s = true → s = p ++ s.drop p.length := by
  induction p with
  | nil => intro s _; rfl
  | cons c cs ih =>
    intro s hs
    cases s with
    | nil => simp [startsWith] at hs
    | cons b bs =>
      simp only [startsWith, Bool.and_eq_true, beq_iff_eq] at hs
      obtain ⟨rfl, h2⟩ := hs
      simpa using ih bs h2

theorem startsWith_http_of_https (t : List Char) :
    startsWith httpPre (httpsPre ++ t) = false := rfl

theorem replaceAllFuel_congr (pat : List Char) :
    ∀ (n m : Nat) (s : List Char), s.length ≤ n → s.length ≤ m →
      replaceAllFuel pat n s = replaceAllFuel pat m s := by
  intro n
  induction n with
  | zero =>
    intro m s hn _
    have hs : s = [] := List.length_eq_zero.mp (Nat.le_zero.mp hn)
    subst hs
    cases m <;> rfl
  | succ n ih =>
    intro m s hn hm
    cases s with
    | nil => cases m <;> rfl
    | cons c rest =>
      cases m with
      | zero => simp at hm
      | succ m =>
        simp only [replaceAllFuel]
        by_cases h : (!pat.isEmpty && startsWith pat (c :: rest)) = true
        · rw [if_pos h, if_pos h]
          apply ih
          · calc (rest.drop (pat.length - 1)).length ≤ rest.length := by
                  simp [List.length_drop]
              _ ≤ n := by simpa using hn
          · calc (rest.drop (pat.length - 1)).length ≤ rest.length := by
                  simp [List.length_drop]
              _ ≤ m := by simpa using hm
        · rw [if_neg h, if_neg h]
          have h1 : rest.length ≤ n := by simpa using hn
          have h2 : rest.length ≤ m := by simpa using hm
          rw [ih m rest h1 h2]

theorem replaceAll_append_self (pat t : List Char) (hp : pat ≠ []) :
    replaceAll pat (pat ++ t) = replaceAll pat t := by
  cases pat with
  | nil => exact absurd rfl hp
  | cons p ps =>
    show replaceAllFuel (p :: ps) ((p :: (ps ++ t)).length) (p :: (ps ++ t)) = _
    have hsw : startsWith (p :: ps) (p :: (ps ++ t)) = true :=
      startsWith_append_self (p :: ps) t
    have hc : (!(p :: ps).isEmpty && startsWith (p :: ps) (p :: (ps ++ t))) = true := by
      simp [hsw]
    simp only [List.length_cons, replaceAllFuel, hc, if_pos, Nat.add_sub_cancel]
    rw [show (ps ++ t).drop ps.length = t from List.drop_left ps t]
    exact replaceAllFuel_congr (p :: ps) (ps ++ t).length t.length t
      (by simp) (Nat.le_refl _)

theorem replaceAll_of_not_contains (pat : List Char) :
    ∀ s : List Char, containsSub pat s = false → replaceAll pat s = s := by
  intro s
  induction s with
  | nil => intro _; rfl
  | cons c cs ih =>
    intro h
    simp only [containsSub, Bool.or_eq_false_iff] at h
    obtain ⟨h1, h2⟩ := h
    show replaceAllFuel pat (c :: cs).length (c :: cs) = c :: cs
    have hc : (!pat.isEmpty && startsWith pat (c :: cs)) = false := by
      simp [h1]
    simp only [List.length_cons, replaceAllFuel, hc, Bool.false_eq_true, if_false]
    rw [show replaceAllFuel pat cs.length cs = cs from ih h2]

theorem dropWhile_twice (p : Char → Bool) (l : List Char) :
    (l.dropWhile p).dropWhile p = l.dropWhile p := by
  induction l with
  | nil => rfl
  | cons c cs ih =>
    by_cases h : p c = true
    · simp [List.dropWhile_cons, h, ih]
    · simp [List.dropWhile_cons, h]

theorem rstrip_idem (s : List Char) : rstripSlash (rstripSlash s) = rstripSlash s := by
  unfold rstripSlash
  rw [List.reverse_reverse, dropWhile_twice]

theorem rstrip_vercel (x : List Char) :
    rstripSlash (x ++ vercelApp) = x ++ vercelApp := by
  unfold rstripSlash
  rw [List.reverse_append]
  have hv : vercelApp.reverse = 'p' :: chars "pa.lecrev." := by decide
  rw [hv, List.cons_append, List.dropWhile_cons]
  have hp : (('p' == '/') = true) = False := by simp
  rw [if_neg (by simp)]
  rw [← List.cons_append, ← hv, ← List.reverse_append, List.reverse_reverse]

theorem drop_eight_append (t : List Char) : (httpsPre ++ t).drop 8 = t := by
  have : httpsPre.length = 8 := by decide
  rw [← this, List.drop_left]

theorem clean_url_shape (url : List Char) :
    ∃ t, clean_url url = httpsPre ++ t ∧ rstripSlash t = t := by
  unfold clean_url
  by_cases h : containsSub vercelCom url = true
  · simp only [h, if_true]
    cases hv : vercelScan (url.splitOn '/') with
    | none =>
      exact ⟨rstripSlash (strip_schemes url), rfl, rstrip_idem _⟩
    | some q =>
      refine ⟨q ++ vercelApp, by simp, rstrip_vercel q⟩
  · simp only [h]
    norm_num
    exact ⟨rstripSlash (strip_schemes url), rfl, rstrip_idem _⟩

/-! ## Claim theorems -/

/-- C7: when the primary GET on the normalized URL fails, the fetcher
tries, in this exact order and stopping at the first success, (a) the
scheme-stripped input with `https://` re-added, (b) the same with
`http://`, (c) the original input coerced to have a scheme if it lacked
one; if all candidates fail the error carries the original input and the
complete attempted list in order.  The attempted list is
`clean_url url :: alternative_urls url` and the result is the first
reachable candidate. -/
theorem fetch_fallback_order (ok : List Char → Bool) (url : List Char) :
    (fetch_result ok url =
      match (clean_url url :: alternative_urls url).find? ok with
      | some r => Except.ok r
      | none => Except.error (url, clean_url url :: alternative_urls url)) ∧
    ((∀ c ∈ clean_url url :: alternative_urls url, ok c = false) →
      fetch_result ok url = Except.error (url, clean_url url :: alternative_urls url)) := by
  have hmain : fetch_result ok url =
      match (clean_url url :: alternative_urls url).find? ok with
      | some r => Except.ok r
      | none => Except.error (url, clean_url url :: alternative_urls url) := by
    unfold fetch_result
    by_cases h : ok (clean_url url) = true
    · rw [if_pos h, List.find?_cons_of_pos _ h]
    · have h' : ok (clean_url url) = false := by simpa using h
      rw [if_neg (by simp [h']), List.find?_cons_of_neg _ (by simp [h'])]
  refine ⟨hmain, fun hall => ?_⟩
  rw [hmain]
  have hnone : (clean_url url :: alternative_urls url).find? ok = none :=
    List.find?_eq_none.mpr (fun x hx => by simp [hall x hx])
  rw [hnone]

/-- Witness for C7 at a concrete unreachable input: the failure result
lists every attempted URL. -/
theorem fetch_fallback_order_witness :
    fetch_result (fun _ => false) (chars "site.com") =
      Except.error (chars "site.com",
        clean_url (chars "site.com") :: alternative_urls (chars "site.com")) :=
  (fetch_fallback_order (fun _ => false) (chars "site.com")).2 (fun _ _ => rfl)

/-- C8 counterexample: the normalizer a scheme substring occurring
inside a query parameter does NOT leave intact — `clean_url` removes
every occurrence of `http://`, not only a leading scheme. -/
theorem clean_url_inner_scheme_counterexample :
    clean_url (chars "a.com?u=http://b") = chars "https://a.com?u=b" ∧
    clean_url (chars "a.com?u=http://b") ≠ chars "https://a.com?u=http://b" := by decide

/-- C8 (amended): for every input without the dashboard-host marker,
`clean_url` removes every occurrence of `https://`, then every
occurrence of `http://`, anywhere in the input, strips trailing slashes
and prepends `https://`. -/
theorem clean_url_strips_all_occurrences (s : List Char)
    (h : containsSub vercelCom s = false) :
    clean_url s = httpsPre ++ rstripSlash (replaceAll httpPre (replaceAll httpsPre s)) := by
  unfold clean_url
  rw [if_neg (by simp [h])]
  rfl

/-- Witness for the amended C8 at a concrete input. -/
theorem clean_url_strips_all_occurrences_witness :
    clean_url (chars "a.com?u=http://b") =
      httpsPre ++ rstripSlash (replaceAll httpPre (replaceAll httpsPre (chars "a.com?u=http://b"))) :=
  clean_url_strips_all_occurrences (chars "a.com?u=http://b") (by decide)

/-- C9 counterexample: `clean_url` is not idempotent; removing the
scheme occurrences can splice a new `https://` into the output, which a
second application then removes. -/
theorem clean_url_idempotence_counterexample :
    clean_url (clean_url (chars "httpshttps://://x")) ≠
      clean_url (chars "httpshttps://://x") := by decide

/-- C9 (amended): the two example normalizations hold, and idempotence
holds for every input whose normalized output carries no `vercel.com`
marker and no scheme occurrence after its leading `https://`. -/
theorem clean_url_examples_and_conditional_idem :
    clean_url (chars "myapp.example.com") = chars "https://myapp.example.com" ∧
    clean_url (chars "https://myapp.example.com/") = chars "https://myapp.example.com" ∧
    ∀ s : List Char,
      containsSub vercelCom (clean_url s) = false →
      containsSub httpsPre ((clean_url s).drop 8) = false →
      containsSub httpPre ((clean_url s).drop 8) = false →
      clean_url (clean_url s) = clean_url s := by
  refine ⟨by decide, by decide, ?_⟩
  intro s h1 h2 h3
  obtain ⟨t, ht, hrs⟩ := clean_url_shape s
  rw [ht] at h1 h2 h3 ⊢
  rw [drop_eight_append] at h2 h3
  unfold clean_url
  rw [if_neg (by simp [h1])]
  unfold generic_clean strip_schemes
  rw [replaceAll_append_self httpsPre t (by decide),
    replaceAll_of_not_contains httpsPre t h2,
    replaceAll_of_not_contains httpPre t h3, hrs]

/-- Witness for the amended C9 at a concrete input. -/
theorem clean_url_examples_and_conditional_idem_witness :
    clean_url (clean_url (chars "b.dev")) = clean_url (chars "b.dev") :=
  clean_url_examples_and_conditional_idem.2.2 (chars "b.dev")
    (by decide) (by decide) (by decide)

/-- C10 counterexample: for the input `http://a?x=http://b`, fallback
candidate (c) is the original input, a plain-HTTP URL different from
candidate (b), and the fetch can succeed on it — so plain HTTP is not
attempted only via candidate (b). -/
theorem plain_http_candidate_counterexample :
    alternative_urls (chars "http://a?x=http://b") =
      [chars "https://a?x=b", chars "http://a?x=b", chars "http://a?x=http://b"] ∧
    startsWith httpPre (chars "http://a?x=http://b") = true ∧
    chars "http://a?x=http://b" ≠ chars "http://a?x=b" ∧
    fetch_result (fun c => c == chars "http://a?x=http://b")
        (chars "http://a?x=http://b") =
      Except.ok (chars "http://a?x=http://b") :=
  ⟨by decide, by decide, by decide, rfl⟩

/-- C10 (amended): the normalizer output always begins with `https://`
(so the primary attempt is HTTPS), and any attempted candidate that is
plain HTTP is either fallback candidate (b) or the original input when
that input itself begins with `http://`. -/
theorem primary_fetch_https (url : List Char) :
    startsWith httpsPre (clean_url url) = true ∧
    ∀ c ∈ clean_url url :: alternative_urls url, startsWith httpPre c = true →
      c = httpPre ++ strip_schemes url ∨ (c = url ∧ startsWith httpPre url = true) := by
  obtain ⟨t, ht, _⟩ := clean_url_shape url
  constructor
  · rw [ht]; exact startsWith_append_self _ _
  · intro c hc hhttp
    simp only [alternative_urls, List.mem_cons, List.not_mem_nil, or_false] at hc
    rcases hc with rfl | rfl | rfl | rfl
    · rw [ht, startsWith_http_of_https] at hhttp
      exact absurd hhttp (by simp)
    · rw [startsWith_http_of_https] at hhttp
      exact absurd hhttp (by simp)
    · exact Or.inl rfl
    · by_cases hsw : startsWith httpPre url = true
      · have hcond : (startsWith httpPre url || startsWith httpsPre url) = true := by
          simp [hsw]
        rw [if_pos hcond]
        exact Or.inr ⟨rfl, hsw⟩
      · have hswf : startsWith httpPre url = false := by simpa using hsw
        by_cases hsw2 : startsWith httpsPre url = true
        · have hcond : (startsWith httpPre url || startsWith httpsPre url) = true := by
            simp [hsw2]
          rw [if_pos hcond] at hhttp
          exact absurd hhttp (by simp [hswf])
        · have hcond : ¬((startsWith httpPre url || startsWith httpsPre url) = true) := by
            simp only [hswf, Bool.false_or]
            exact hsw2
          rw [if_neg hcond, startsWith_http_of_https] at hhttp
          exact absurd hhttp (by simp)

/-- Witness for the amended C10 at a concrete candidate. -/
theorem primary_fetch_https_witness :
    httpPre ++ strip_schemes (chars "b.io") = httpPre ++ strip_schemes (chars "b.io") ∨
    (httpPre ++ strip_schemes (chars "b.io") = chars "b.io" ∧
      startsWith httpPre (chars "b.io") = true) :=
  (primary_fetch_https (chars "b.io")).2 (httpPre ++ strip_schemes (chars "b.io"))
    (by decide) (by decide)

/-- C1: the growth-rate computation of
`GrowthDashboard._show_growth_insights` gives the percentage change
(100% for complexities 10 then 20) and is skipped for fewer than two
snapshots, but the division is NOT guarded: with a first complexity of 0
the code performs `(20 - 0) / 0` and raises `ZeroDivisionError` instead
of returning an explicit undefined result. -/
theorem growth_rate_unguarded_zero_division :
    growth_rate [0, 20] = some (Except.error PyError.zeroDivisionError) ∧
    growth_rate [10, 20] = some (Except.ok 100) ∧
    growth_rate [10] = none := by
  refine ⟨?_, ?_, rfl⟩
  · simp [growth_rate, pyDivQ, Except.map]
  · simp only [growth_rate, pyDivQ, List.length_cons, List.length_nil, List.getLastD,
      List.headD, if_pos (by norm_num : (1:Nat) < 2)]
    norm_num [Except.map]

/-- C2 counterexample: for two snapshots one day apart (mean gap 1 day,
so at most 7), the claimed formula `100 - max(0, gap - 7) * 5` yields
100, but the code computes `max(0, 100 - (gap - 7) * 5) = 130`. -/
theorem consistency_formula_counterexample :
    consistency_score [0, 1] = some 130 ∧
    100 - max 0 (meanGapDays [0, 1] - 7) * 5 = (100 : ℚ) ∧
    (130 : ℚ) ≠ 100 := by
  have hg : meanGapDays [0, 1] = 1 := by
    simp [meanGapDays, listMaxI, listMinI]
  refine ⟨?_, ?_, by norm_num⟩
  · simp only [consistency_score, List.length_cons, List.length_nil,
      if_pos (by norm_num : (1:Nat) < 2), hg]
    norm_num
  · rw [hg]
    norm_num

/-- C2 (amended): for two or more snapshots the consistency score equals
`max(0, 100 - (meanGapDays - 7) * 5)` — the floor at zero applies to the
whole score, and a mean gap of at most 7 days yields a score of AT LEAST
100 (exactly 100 only at a 7-day mean gap); for fewer than two snapshots
no score is computed. -/
theorem consistency_formula_amended :
    (∀ dates : List Int, 2 ≤ dates.length →
      consistency_score dates = some (max 0 (100 - (meanGapDays dates - 7) * 5)) ∧
      (meanGapDays dates ≤ 7 →
        ∃ c, consistency_score dates = some c ∧ 100 ≤ c)) ∧
    (∀ dates : List Int, dates.length < 2 → consistency_score dates = none) := by
  constructor
  · intro dates hlen
    have hgt : 1 < dates.length := hlen
    constructor
    · unfold consistency_score
      rw [if_pos hgt]
    · intro hg
      have hfac : (meanGapDays dates - 7) * 5 ≤ 0 := by nlinarith
      refine ⟨100 - (meanGapDays dates - 7) * 5, ?_, by linarith⟩
      unfold consistency_score
      rw [if_pos hgt]
      congr 1
      exact max_eq_right (by linarith)
  · intro dates hlen
    unfold consistency_score
    rw [if_neg (by omega)]

/-- Witness for the amended C2 at a concrete snapshot list. -/
theorem consistency_formula_amended_witness :
    consistency_score [0, 1] = some (max 0 (100 - (meanGapDays [0, 1] - 7) * 5)) :=
  ((consistency_formula_amended.1 [0, 1]) (by decide)).1

/-- C3: for a parser-accepted body with no `<html>` element the analysis
does NOT return the success variant: `_analyze_accessibility` evaluates
`soup.find('html').get('lang')` on `None` and the raised
`AttributeError` sends `analyze_url` into the error variant; with an
`<html>` element present the same pipeline succeeds. -/
theorem analysis_missing_html_error :
    analyze_document noHtmlDoc respEx (chars "https://x.example.com") =
      Except.error PyError.attributeError ∧
    analysisOk (analyze_document withHtmlDoc respEx (chars "https://x.example.com")) = true :=
  ⟨rfl, rfl⟩

/-- C4: the overall score equals the integer floor of the mean of the
SEO, performance and security scores, characterised by
`3 * overall ≤ seo + performance + security < 3 * overall + 3`. -/
theorem overall_floor_of_mean (a : SeoSignals) (p : PerfSignals) (s : SecSignals) :
    (calculate_scores a p s).overall =
      ⌊(((calculate_scores a p s).seo + (calculate_scores a p s).performance +
          (calculate_scores a p s).security : Int) : ℚ) / 3⌋ ∧
    3 * (calculate_scores a p s).overall ≤
      (calculate_scores a p s).seo + (calculate_scores a p s).performance +
        (calculate_scores a p s).security ∧
    (calculate_scores a p s).seo + (calculate_scores a p s).performance +
        (calculate_scores a p s).security < 3 * (calculate_scores a p s).overall + 3 := by
  dsimp only [calculate_scores]
  have hseo : (0:Int) ≤ seo_score a := by
    unfold seo_score
    split_ifs <;> norm_num
  have hsec : (0:Int) ≤ security_score s := by
    unfold security_score
    split_ifs <;> norm_num
  have hperf : (0:Int) ≤ performance_score p := le_max_left 0 _
  set T : Int := seo_score a + performance_score p + security_score s with hT
  have hT0 : (0:Int) ≤ T := by rw [hT]; linarith
  have hq : (0:ℚ) ≤ (T : ℚ) / 3 := by positivity
  have hov : pyTrunc ((T : ℚ) / 3) = ⌊(T : ℚ) / 3⌋ := by
    unfold pyTrunc
    rw [if_pos hq]
  refine ⟨hov, ?_, ?_⟩
  · rw [hov]
    have h1 : ((⌊(T : ℚ) / 3⌋ : Int) : ℚ) ≤ (T : ℚ) / 3 := Int.floor_le _
    have h2 : ((3 * ⌊(T : ℚ) / 3⌋ : Int) : ℚ) ≤ (T : ℚ) := by push_cast; linarith
    exact_mod_cast h2
  · rw [hov]
    have h1 : (T : ℚ) / 3 < ⌊(T : ℚ) / 3⌋ + 1 := Int.lt_floor_add_one _
    have h2 : (T : ℚ) < ((3 * ⌊(T : ℚ) / 3⌋ + 3 : Int) : ℚ) := by push_cast; linarith
    exact_mod_cast h2

/-- C5: the SEO score is bounded by the 100 cap, reaches exactly 100
with all six contributors present, and dropping any single contributor
lowers it by exactly its listed weight (20, 15, 15, 15, 15, 20). -/
theorem seo_score_weights :
    (∀ s : SeoSignals, 0 ≤ seo_score s ∧ seo_score s ≤ 100) ∧
    seo_score seoFull = 100 ∧
    seo_score { seoFull with metaDescription := none } = 100 - 20 ∧
    seo_score { seoFull with metaKeywords := none } = 100 - 15 ∧
    seo_score { seoFull with h1Count := 2 } = 100 - 15 ∧
    seo_score { seoFull with hasRobotsTxt := false } = 100 - 15 ∧
    seo_score { seoFull with hasSitemap := false } = 100 - 15 ∧
    seo_score { seoFull with imageAltTexts := 0 } = 100 - 20 := by
  refine ⟨?_, by decide, by decide, by decide, by decide, by decide, by decide, by decide⟩
  intro s
  unfold seo_score
  constructor <;> split_ifs <;> norm_num

/-- C6: the complexity estimate is clamped into `[0, 100]` for every
parsed document, however large its structural counts. -/
theorem complexity_clamped (d : Doc) :
    0 ≤ calculate_complexity d ∧ calculate_complexity d ≤ 100 := by
  unfold calculate_complexity
  refine ⟨le_min (by positivity) (by norm_num), min_le_right _ _⟩

end Tracker
